import Mathlib

/-!
Verification development for the shm_dict repository (shm_dict/shm_dict.py).

The module implements `SHMDict`, a mapping backed by a POSIX shared-memory
segment and guarded by a named semaphore, with optional mirroring to a
persistence file.  We embed the methods of `SHMDict` as pure functions over an
explicit state:

* the serialization codec (the external `pickle` module) is modelled by an
  executable, self-delimiting byte codec `dumps`/`loads` over association
  lists of byte strings;
* Python object identity of `self.__internal_dict` matters (iterators alias
  the dict object, and `__load_dict` either rebinds the name to a freshly
  unpickled object or keeps the old object), so the state carries a heap of
  dict objects and `cacheRef`, a reference into that heap;
* the `threading.local` slot is a partial map from thread ids to the flag;
* the mmap view is a byte list; `mmap.resize` truncates or zero-extends;
* exceptions are modelled by an `Option PyErr` result component.
-/

namespace SHMDict

/-- Dictionary values: Python dicts with pickled keys/values, modelled as
insertion-ordered association lists of byte strings. -/
abbrev Dict := List (List Nat × List Nat)

/-- Python `d[k] = v` on an insertion-ordered dict: replace in place if the
key exists, else append. -/
def dictSet : Dict → List Nat → List Nat → Dict
  | [], k, v => [(k, v)]
  | (k₀, v₀) :: rest, k, v =>
    if k₀ = k then (k, v) :: rest else (k₀, v₀) :: dictSet rest k v

/-- Keys of a dict in iteration order (Python `iter(d)`). -/
def dictKeys (d : Dict) : List (List Nat) := d.map Prod.fst

/-! ## Model of the external serialization codec (`pickle`)

`pickle` is an external collaborator of the repository.  We model it by a
concrete executable codec: a payload is self-delimiting (as pickle streams
are), so decoding ignores trailing bytes, and the all-zero bytes of a fresh
shared-memory page do not decode (as unpickling an empty mmap raises). -/

/-- Unary length encoding with an explicit terminator; the byte 0 (fresh
zero-filled shared memory) is not a valid start, matching pickle's failure
on an empty/zeroed segment. -/
def encodeNat : Nat → List Nat
  | 0 => [1]
  | n + 1 => 2 :: encodeNat n

def decodeNat : List Nat → Option (Nat × List Nat)
  | 1 :: rest => some (0, rest)
  | 2 :: rest =>
    match decodeNat rest with
    | some (n, r) => some (n + 1, r)
    | none => none
  | _ => none

/-- Length-prefixed byte string. -/
def encBytes (b : List Nat) : List Nat := encodeNat b.length ++ b

def decBytes (s : List Nat) : Option (List Nat × List Nat) :=
  match decodeNat s with
  | none => none
  | some (n, r) => if n ≤ r.length then some (r.take n, r.drop n) else none

/-- One key/value entry. -/
def encEntry (e : List Nat × List Nat) : List Nat := encBytes e.1 ++ encBytes e.2

def dumpsEntries : Dict → List Nat
  | [] => []
  | e :: d => encEntry e ++ dumpsEntries d

/-- Model of `pickle.dumps(d, 2)` for a dict: entry count, then the entries. -/
def dumps (d : Dict) : List Nat := encodeNat d.length ++ dumpsEntries d

def decEntries : Nat → List Nat → Option (Dict × List Nat)
  | 0, s => some ([], s)
  | n + 1, s =>
    match decBytes s with
    | none => none
    | some (k, s₁) =>
      match decBytes s₁ with
      | none => none
      | some (v, s₂) =>
        match decEntries n s₂ with
        | none => none
        | some (d, s₃) => some ((k, v) :: d, s₃)

/-- Model of `pickle.load` from the mapped view: `none` models the
deserialization exception. -/
def loads (s : List Nat) : Option Dict :=
  match decodeNat s with
  | none => none
  | some (n, r) =>
    match decEntries n r with
    | none => none
    | some (d, _) => some d

/-! ## State of an `SHMDict` handle and its OS resources -/

/-- Python exceptions surfaced by the embedded methods. -/
inductive PyErr where
  /-- `posix_ipc.BusyError` from `semaphore.acquire`. -/
  | busy : PyErr
  /-- `AttributeError` from reading an unset `threading.local` slot. -/
  | attributeError : PyErr
  /-- `IOError` from writing the persistence file. -/
  | ioError : PyErr
  /-- `pickle.UnpicklingError` from the persistence file (not caught there). -/
  | unpickleError : PyErr
deriving DecidableEq

/-- Environment outside the handle: the persistence file's behavior.
`persistReadable = none` models an `IOError` on opening the file for
reading; `persistWriteOk = false` models a failure writing it. -/
structure World where
  persistReadable : Option (List Nat)
  persistWriteOk : Bool

/-- State of one `SHMDict` handle together with the named OS resources it
uses.  `heap`/`cacheRef` model Python object identity of
`self.__internal_dict` (`cacheRef = none` is Python `None`); `threadLocal`
models the `threading.local` slot `semaphore`, set per thread id;
`semValue` is the named semaphore's value; `segment` is the shared-memory
segment seen through the mmap view. -/
structure SHMState where
  page : Nat
  lockTimeout : Nat
  autoUnlock : Bool
  persistConfigured : Bool
  heap : List Dict
  cacheRef : Option Nat
  dirty : Bool
  segment : List Nat
  semValue : Nat
  threadLocal : Nat → Option Bool

/-- The dict object currently bound to `self.__internal_dict`, if any. -/
def currentDict (s : SHMState) : Option Dict :=
  s.cacheRef.bind fun r => s.heap.get? r

/-- `pickle.dumps(self.__internal_dict, 2)`: the cache may still be Python
`None`, whose encoding `[3]` never decodes as a dict.  (No reachable save
ever writes it: saves happen only after a load has bound a dict.) -/
def cachePickle (s : SHMState) : List Nat :=
  match s.cacheRef with
  | none => [3]
  | some r => dumps ((s.heap.get? r).getD [])

/-- `ceil(len / PAGESIZE) * PAGESIZE` from the `map_file` property. -/
def pageRoundUp (page n : Nat) : Nat := ((n + page - 1) / page) * page

/-- `mmap.resize(newLen)`: truncates when shrinking, zero-fills when
growing (the underlying object is extended with zero bytes). -/
def mmapResize (seg : List Nat) (newLen : Nat) : List Nat :=
  if newLen ≤ seg.length then seg.take newLen
  else seg ++ List.replicate (newLen - seg.length) 0

/-- The resize performed by the `map_file` property: grow or shrink the
view to the smallest page multiple that holds `target` bytes. -/
def resizeSeg (page : Nat) (seg : List Nat) (target : Nat) : List Nat :=
  mmapResize seg (pageRoundUp page target)

/-- The `map_file` property: every access resizes the view to fit the
pickle of the current cache. -/
def mapFile (s : SHMState) : List Nat :=
  resizeSeg s.page s.segment (cachePickle s).length

/-- Writing a pickle at offset 0 of the view (`seek(0)` then `dump`):
overwrites a prefix, keeps the trailing bytes. -/
def writeAt0 (seg bytes : List Nat) : List Nat := bytes ++ seg.drop bytes.length

/-- Update of the `threading.local` slot for one thread. -/
def setTL (tl : Nat → Option Bool) (tid : Nat) (b : Bool) : Nat → Option Bool :=
  fun t => if t = tid then some b else tl t

/-! ## The embedded methods of `SHMDict` -/

/-- `SHMDict.__load_dict`: read the view from offset 0 (which first resizes
it through the `map_file` property); a successful unpickle binds the cache
to a fresh object; on failure, only a cache that is still `None` falls back
to the persistence file (`IOError` there is swallowed) and finally to a new
empty dict.  An unpickle failure on the persistence file itself is not
caught. -/
def loadDict (w : World) (s : SHMState) : SHMState × Option PyErr :=
  let seg := mapFile s
  let s₁ := { s with segment := seg }
  match loads seg with
  | some d => ({ s₁ with heap := s₁.heap ++ [d], cacheRef := some s₁.heap.length }, none)
  | none =>
    match s₁.cacheRef, s₁.persistConfigured with
    | none, true =>
      match w.persistReadable with
      | none => ({ s₁ with heap := s₁.heap ++ [[]], cacheRef := some s₁.heap.length }, none)
      | some bs =>
        match loads bs with
        | some d => ({ s₁ with heap := s₁.heap ++ [d], cacheRef := some s₁.heap.length }, none)
        | none => (s₁, some PyErr.unpickleError)
    | none, false => ({ s₁ with heap := s₁.heap ++ [[]], cacheRef := some s₁.heap.length }, none)
    | some _, _ => (s₁, none)

/-- `SHMDict.__save_dict`: when dirty, resize the view (via `map_file`) and
write the pickled cache at offset 0, then mirror it to the persistence file
when configured — a write failure there propagates, skipping the final
`dirty = False`. -/
def saveDict (w : World) (s : SHMState) : SHMState × Option PyErr :=
  if s.dirty = true then
    let s₁ := { s with segment := writeAt0 (mapFile s) (cachePickle s) }
    if s₁.persistConfigured = true then
      if w.persistWriteOk = true then ({ s₁ with dirty := false }, none)
      else (s₁, some PyErr.ioError)
    else ({ s₁ with dirty := false }, none)
  else ({ s with dirty := false }, none)

/-- `SHMDict._acquire_lock`.  Reading the thread-local flag raises
`AttributeError` on a thread that never set it.  When the flag is false the
semaphore is acquired when available; the blocked case models the wait
elapsing without any release by another process (exact for
`lock_timeout = 0`): `BusyError` is re-raised unless `auto_unlock` marks
the thread as holding without acquiring.  In all non-raising paths
`__load_dict` runs, including the re-entrant one. -/
def acquireLock (w : World) (tid : Nat) (s : SHMState) : SHMState × Option PyErr :=
  match s.threadLocal tid with
  | none => (s, some PyErr.attributeError)
  | some held =>
    if held = false then
      if 0 < s.semValue then
        loadDict w { s with semValue := s.semValue - 1,
                            threadLocal := setTL s.threadLocal tid true }
      else
        if s.autoUnlock = true then
          loadDict w { s with threadLocal := setTL s.threadLocal tid true }
        else (s, some PyErr.busy)
    else loadDict w s

/-- `SHMDict._release_lock`: when the thread-local flag is set, save, then
release the semaphore, then clear the flag.  A save failure propagates
before the semaphore is released. -/
def releaseLock (w : World) (tid : Nat) (s : SHMState) : SHMState × Option PyErr :=
  match s.threadLocal tid with
  | none => (s, some PyErr.attributeError)
  | some held =>
    if held = true then
      match saveDict w s with
      | (s₁, some e) => (s₁, some e)
      | (s₁, none) =>
        ({ s₁ with semValue := s₁.semValue + 1,
                   threadLocal := setTL s₁.threadLocal tid false }, none)
    else (s, none)

/-- Rebind the cache object's contents (a mutation of the dict object
`self.__internal_dict` refers to, in place). -/
def mutateCache (s : SHMState) (f : Dict → Dict) : SHMState :=
  match s.cacheRef with
  | some r => { s with heap := s.heap.set r (f ((s.heap.get? r).getD [])) }
  | none => s

/-- `SHMDict.__setitem__`: acquire (which loads), assign the key in the
cache object, mark dirty, release (which saves). -/
def setItem (w : World) (tid : Nat) (k v : List Nat) (s : SHMState) :
    SHMState × Option PyErr :=
  match acquireLock w tid s with
  | (s₁, some e) => (s₁, some e)
  | (s₁, none) =>
    releaseLock w tid { mutateCache s₁ (fun d => dictSet d k v) with dirty := true }

/-- `SHMDict.__iter__`: acquire, take `iter(self.__internal_dict)` — a
reference to the cache object itself, not a copy — then release.  The
second component is the iterator's object reference. -/
def iterOp (w : World) (tid : Nat) (s : SHMState) :
    (SHMState × Option PyErr) × Option Nat :=
  match acquireLock w tid s with
  | (s₁, some e) => ((s₁, some e), none)
  | (s₁, none) => ((releaseLock w tid s₁), s₁.cacheRef)

/-- The keys an iterator obtained earlier yields when consumed in state
`s`: the keys of the object it references. -/
def iterYieldKeys (s : SHMState) (it : Option Nat) : List (List Nat) :=
  match it with
  | some r => dictKeys ((s.heap.get? r).getD [])
  | none => []

/-- `SHMDict.__init__` plus lazy creation of the named resources on first
use: empty cache (`None`), clean, a fresh zero-filled one-page segment, a
semaphore at its initial value 1, and the thread-local flag set (to false)
only for the constructing thread. -/
def initState (page lockTimeout : Nat) (persist autoUnlock : Bool)
    (creator : Nat) : SHMState :=
  { page := page
    lockTimeout := lockTimeout
    autoUnlock := autoUnlock
    persistConfigured := persist
    heap := []
    cacheRef := none
    dirty := false
    segment := List.replicate page 0
    semValue := 1
    threadLocal := fun t => if t = creator then some false else none }

/-- `sem_wait` performed by another process holding the same named
semaphore. -/
def semWait (s : SHMState) : SHMState := { s with semValue := s.semValue - 1 }

/-- `sem_post` performed by another process on the same named semaphore. -/
def semPost (s : SHMState) : SHMState := { s with semValue := s.semValue + 1 }

/-! ## Model of `SHMDict._safe_name` -/

/-- Byte sequence of `"_".join([tag, str(name)]).encode("utf-8")`, at the
code-point level (identical to UTF-8 on the ASCII inputs used below). -/
def strBytes (s : String) : List Nat := s.data.map Char.toNat

/-- Model of the external SHA-512 primitive (`hashlib.sha512`): an
arbitrary pure function with a 64-byte digest.  The naming claims depend
only on its determinism and its output length. -/
def sha512model (input : List Nat) : List Nat :=
  (List.range 64).map fun i => (input.foldl (fun a b => a * 31 + b) (i + 1)) % 256

/-- Character of one 6-bit group in the base64url alphabet. -/
def b64urlChar (n : Nat) : Char :=
  if n < 26 then Char.ofNat (65 + n)
  else if n < 52 then Char.ofNat (97 + (n - 26))
  else if n < 62 then Char.ofNat (48 + (n - 52))
  else if n = 62 then Char.ofNat 45
  else Char.ofNat 95

/-- `base64.urlsafe_b64encode` over bytes, including the `=` padding. -/
def b64urlEncode : List Nat → List Char
  | b₁ :: b₂ :: b₃ :: rest =>
    let n := b₁ * 65536 + b₂ * 256 + b₃
    b64urlChar (n / 262144) :: b64urlChar (n / 4096 % 64) ::
      b64urlChar (n / 64 % 64) :: b64urlChar (n % 64) :: b64urlEncode rest
  | [b₁, b₂] =>
    let n := b₁ * 1024 + b₂ * 4
    [b64urlChar (n / 4096), b64urlChar (n / 64 % 64), b64urlChar (n % 64),
      Char.ofNat 61]
  | [b₁] =>
    let n := b₁ * 16
    [b64urlChar (n / 64), b64urlChar (n % 64), Char.ofNat 61, Char.ofNat 61]
  | [] => []

/-- Python 3 `"{}".format(b)` for a bytes object `b`: the interpolation is
`str(b)`, i.e. the repr `b` + quote + payload + quote.  A base64url payload
contains no byte needing escapes, so the payload appears verbatim between
the two apostrophe characters (code point 39) after the letter `b`. -/
def pyFormatBytes (bs : List Char) : List Char :=
  Char.ofNat 98 :: Char.ofNat 39 :: (bs ++ [Char.ofNat 39])

/-- `SHMDict._safe_name` under Python 3 (the interpreter named by the
module's shebang): hash the joined tag and name, base64url-encode the
digest, and format it after a leading `/` (code point 47). -/
def safeName (tag name : String) : List Char :=
  Char.ofNat 47 ::
    pyFormatBytes (b64urlEncode (sha512model (strBytes (tag ++ "_" ++ name))))

/-- `SHMDict.safe_sem_name`. -/
def safeSemName (name : String) : List Char := safeName "sem" name

/-- `SHMDict.safe_shm_name`. -/
def safeShmName (name : String) : List Char := safeName "shm" name

/-- The character set the spec permits after the leading separator: the
base64url alphabet plus the `=` padding. -/
def isB64urlOrPad (c : Char) : Bool :=
  (65 ≤ c.toNat && c.toNat ≤ 90) || (97 ≤ c.toNat && c.toNat ≤ 122) ||
    (48 ≤ c.toNat && c.toNat ≤ 57) || c.toNat == 45 || c.toNat == 95 ||
    c.toNat == 61

/-! ## Concrete scenario states used by the claim theorems -/

/-- A world with no readable persistence file and a writable one. -/
def w₀ : World := { persistReadable := none, persistWriteOk := true }

/-- Handle state after another process took the semaphore and this handle
(with `auto_unlock = True` and `lock_timeout = 0`) bypassed the timeout:
the thread-local flag is set although the semaphore was never acquired. -/
def c1Held : SHMState :=
  (acquireLock w₀ 0 (semWait (initState 4 0 false true 0))).1

/-- The full C1 scenario: the bypassing handle releases, then the real
holder releases. -/
def c1Trace : SHMState := semPost ((releaseLock w₀ 0 c1Held).1)

/-- A thread holding the lock with a pending unsaved mutation
`{[1]: [2]}` in the cache, while the segment still holds the pickle of the
empty dict it loaded from (padded to the page). -/
def c2State : SHMState :=
  { page := 4
    lockTimeout := 0
    autoUnlock := false
    persistConfigured := false
    heap := [[([1], [2])]]
    cacheRef := some 0
    dirty := true
    segment := [1, 0, 0, 0]
    semValue := 0
    threadLocal := fun t => if t = 0 then some true else none }

/-- A fresh handle whose semaphore is already held elsewhere,
`lock_timeout = 0`, `auto_unlock = False`. -/
def c8aState : SHMState :=
  { initState 4 0 false false 1 with semValue := 0 }

/-- Same scenario with `auto_unlock = True`. -/
def c8bState : SHMState :=
  { initState 4 0 false true 1 with semValue := 0 }

/-- A handle whose cache holds `{[5]: [6]}` while the segment bytes are
garbage (byte 9 never decodes) and a persistence file holding the pickle of
`{[7]: [8]}` is configured and readable. -/
def c6State : SHMState :=
  { page := 4
    lockTimeout := 0
    autoUnlock := false
    persistConfigured := true
    heap := [[([5], [6])]]
    cacheRef := some 0
    dirty := false
    segment := [9, 0, 0, 0]
    semValue := 0
    threadLocal := fun t => if t = 0 then some true else none }

/-- The world for the C6 scenario: the persistence file is readable and
holds the pickle of `{[7]: [8]}`. -/
def c6World : World :=
  { persistReadable := some (dumps [([7], [8])]), persistWriteOk := true }

/-- A dirty handle state with a persistence file configured. -/
def c7State : SHMState := { c2State with persistConfigured := true }

/-- A world whose persistence file cannot be written. -/
def wBad : World := { persistReadable := none, persistWriteOk := false }

/-- A fresh volatile handle built by thread 0 (page size 4 in the model). -/
def c9Init : SHMState := initState 4 0 false false 0

/-- `iter(d)` on the fresh handle: the first load fails (zeroed segment),
binds a new empty dict, and the iterator references that object. -/
def c9Iter : (SHMState × Option PyErr) × Option Nat := iterOp w₀ 0 c9Init

/-- `d[[1]] = [2]` after taking the iterator: the reload fails again (the
dirty-free release never wrote the segment), so the same dict object is
mutated in place. -/
def c9AfterSet : SHMState := (setItem w₀ 0 [1] [2] c9Iter.1.1).1

/-! ## Codec lemmas -/

theorem decodeNat_enc (n : Nat) (r : List Nat) :
    decodeNat (encodeNat n ++ r) = some (n, r) := by
  induction n with
  | zero => rfl
  | succ n ih => simp [encodeNat, decodeNat, ih]

theorem take_app (a b : List Nat) : (a ++ b).take a.length = a := by
  induction a with
  | nil => rfl
  | cons x xs ih => simp [ih]

theorem drop_app (a b : List Nat) : (a ++ b).drop a.length = b := by
  induction a with
  | nil => rfl
  | cons x xs ih => simp [ih]

theorem decBytes_enc (b r : List Nat) :
    decBytes (encBytes b ++ r) = some (b, r) := by
  simp only [encBytes, List.append_assoc, decBytes, decodeNat_enc]
  have hle : b.length ≤ (b ++ r).length := by simp
  simp [hle, take_app, drop_app]

theorem decEntries_enc (d : Dict) (r : List Nat) :
    decEntries d.length (dumpsEntries d ++ r) = some (d, r) := by
  induction d generalizing r with
  | nil => rfl
  | cons e d ih =>
    simp only [dumpsEntries, encEntry, List.length_cons, List.append_assoc]
    simp [decEntries, decBytes_enc, ih]

/-- The codec round-trip: a dump followed by arbitrary trailing bytes
(the rest of the page) decodes back to the original dict. -/
theorem loads_dumps (d : Dict) (r : List Nat) :
    loads (dumps d ++ r) = some d := by
  simp [dumps, List.append_assoc, loads, decodeNat_enc, decEntries_enc]

/-! ## Structural lemmas about the segment and the methods -/

theorem pageRoundUp_ge (p n : Nat) (hp : 0 < p) : n ≤ pageRoundUp p n := by
  unfold pageRoundUp
  rw [Nat.mul_comm]
  have hdm := Nat.div_add_mod (n + p - 1) p
  have hlt : (n + p - 1) % p < p := Nat.mod_lt _ hp
  omega

theorem mmapResize_length (seg : List Nat) (L : Nat) :
    (mmapResize seg L).length = L := by
  unfold mmapResize
  split <;> simp <;> omega

theorem mmapResize_self (seg : List Nat) (L : Nat) (h : seg.length = L) :
    mmapResize seg L = seg := by
  unfold mmapResize
  rw [if_pos (le_of_eq h.symm), ← h, List.take_length]

theorem resizeSeg_length (p : Nat) (seg : List Nat) (t : Nat) :
    (resizeSeg p seg t).length = pageRoundUp p t := by
  unfold resizeSeg; exact mmapResize_length _ _

theorem writeAt0_length (seg bytes : List Nat) (h : bytes.length ≤ seg.length) :
    (writeAt0 seg bytes).length = seg.length := by
  unfold writeAt0; simp; omega

theorem loadDict_semValue (w : World) (s : SHMState) :
    ((loadDict w s).1).semValue = s.semValue := by
  unfold loadDict
  dsimp only
  repeat' split
  all_goals rfl

theorem loadDict_threadLocal (w : World) (s : SHMState) :
    ((loadDict w s).1).threadLocal = s.threadLocal := by
  unfold loadDict
  dsimp only
  repeat' split
  all_goals rfl

theorem loadDict_err (w : World) (s : SHMState) :
    (loadDict w s).2 = none ∨ (loadDict w s).2 = some PyErr.unpickleError := by
  unfold loadDict
  dsimp only
  repeat' split
  all_goals first | exact Or.inl rfl | exact Or.inr rfl

theorem saveDict_semValue (w : World) (s : SHMState) :
    ((saveDict w s).1).semValue = s.semValue := by
  unfold saveDict
  dsimp only
  repeat' split
  all_goals rfl

theorem saveDict_threadLocal (w : World) (s : SHMState) :
    ((saveDict w s).1).threadLocal = s.threadLocal := by
  unfold saveDict
  dsimp only
  repeat' split
  all_goals rfl

theorem saveDict_dirty_of_ok (w : World) (s : SHMState)
    (h : (saveDict w s).2 = none) : ((saveDict w s).1).dirty = false := by
  unfold saveDict at h ⊢
  dsimp only at h ⊢
  rcases hd : s.dirty with _ | _ <;> rcases hp : s.persistConfigured with _ | _ <;>
    rcases hw : w.persistWriteOk with _ | _ <;> simp [hd, hp, hw] at h ⊢

theorem saveDict_heap (w : World) (s : SHMState) :
    ((saveDict w s).1).heap = s.heap := by
  unfold saveDict
  try dsimp only
  repeat' split
  all_goals rfl

theorem saveDict_cacheRef (w : World) (s : SHMState) :
    ((saveDict w s).1).cacheRef = s.cacheRef := by
  unfold saveDict
  try dsimp only
  repeat' split
  all_goals rfl

theorem saveDict_page (w : World) (s : SHMState) :
    ((saveDict w s).1).page = s.page := by
  unfold saveDict
  try dsimp only
  repeat' split
  all_goals rfl

theorem saveDict_segment_of_dirty (w : World) (s : SHMState)
    (hd : s.dirty = true) :
    ((saveDict w s).1).segment = writeAt0 (mapFile s) (cachePickle s) := by
  unfold saveDict
  try dsimp only
  rw [hd]
  try dsimp only
  repeat' split
  all_goals first | rfl | simp_all

theorem releaseLock_heap (w : World) (tid : Nat) (s : SHMState) :
    ((releaseLock w tid s).1).heap = s.heap := by
  have hs := saveDict_heap w s
  unfold releaseLock
  try dsimp only
  repeat' split
  all_goals simp_all

/-- `__load_dict` when the segment deserializes: the cache is rebound to a
fresh object holding the decoded dict. -/
theorem loadDict_of_loads_some (w : World) (s : SHMState) (d : Dict)
    (h : loads (mapFile s) = some d) :
    loadDict w s =
      ({ s with segment := mapFile s, heap := s.heap ++ [d],
                cacheRef := some s.heap.length }, none) := by
  unfold loadDict
  dsimp only
  rw [h]

/-- `__load_dict` when the segment does not deserialize but the cache is
already bound: the old cache object is silently kept. -/
theorem loadDict_of_loads_none_ref (w : World) (s : SHMState) (r : Nat)
    (h : loads (mapFile s) = none) (hr : s.cacheRef = some r) :
    loadDict w s = ({ s with segment := mapFile s }, none) := by
  unfold loadDict
  dsimp only
  rw [h, hr]

/-- `__load_dict` when nothing deserializes, the cache is unbound, and the
persistence file read raises `IOError`: a fresh empty dict. -/
theorem loadDict_of_loads_none_none_ioerr (w : World) (s : SHMState)
    (h : loads (mapFile s) = none) (hr : s.cacheRef = none)
    (hp : s.persistConfigured = true) (hw : w.persistReadable = none) :
    loadDict w s =
      ({ s with segment := mapFile s, heap := s.heap ++ [[]],
                cacheRef := some s.heap.length }, none) := by
  unfold loadDict
  dsimp only
  rw [h, hr, hp, hw]

/-- `__load_dict` falling back to a readable, decodable persistence file. -/
theorem loadDict_of_loads_none_none_file (w : World) (s : SHMState)
    (bs : List Nat) (d : Dict) (h : loads (mapFile s) = none)
    (hr : s.cacheRef = none) (hp : s.persistConfigured = true)
    (hw : w.persistReadable = some bs) (hbs : loads bs = some d) :
    loadDict w s =
      ({ s with segment := mapFile s, heap := s.heap ++ [d],
                cacheRef := some s.heap.length }, none) := by
  unfold loadDict
  dsimp only
  rw [h, hr, hp, hw]
  dsimp only
  rw [hbs]

/-- `__load_dict` with no persistence configured and an unbound cache: a
fresh empty dict. -/
theorem loadDict_of_loads_none_none_nopersist (w : World) (s : SHMState)
    (h : loads (mapFile s) = none) (hr : s.cacheRef = none)
    (hp : s.persistConfigured = false) :
    loadDict w s =
      ({ s with segment := mapFile s, heap := s.heap ++ [[]],
                cacheRef := some s.heap.length }, none) := by
  unfold loadDict
  dsimp only
  rw [h, hr, hp]

theorem get?_app_length (l : List Dict) (a : Dict) :
    (l ++ [a]).get? l.length = some a := List.get?_concat_length l a

/-- The mutate-then-release tail of a facade mutation touches only the
cache object's own heap cell. -/
theorem relMut_heap_get (w : World) (tid : Nat) (sA : SHMState)
    (f : Dict → Dict) (j it : Nat) (href : sA.cacheRef = some j)
    (hne : j ≠ it) :
    ((releaseLock w tid { mutateCache sA f with dirty := true }).1).heap.get? it =
      sA.heap.get? it := by
  rw [releaseLock_heap]
  try dsimp only
  unfold mutateCache
  rw [href]
  try dsimp only
  exact List.get?_set_ne _ _ hne

/-! ## Claim theorems -/

/-- Claim C1, amended: `_release_lock` on a thread whose held flag is set
first saves, then releases the semaphore unconditionally — also when the
flag was set by the `auto_unlock` timeout bypass and the semaphore was
never acquired — then clears the flag; consequently the semaphore's value
can rise above its initial value 1. -/
theorem C1_release_posts_unconditionally (w : World) (tid : Nat) (s : SHMState)
    (h : s.threadLocal tid = some true) (hok : (saveDict w s).2 = none) :
    (releaseLock w tid s).2 = none ∧
    (releaseLock w tid s).1.semValue = s.semValue + 1 ∧
    (releaseLock w tid s).1.threadLocal tid = some false ∧
    (releaseLock w tid s).1.dirty = false := by
  have hsem := saveDict_semValue w s
  have hdirty := saveDict_dirty_of_ok w s hok
  unfold releaseLock
  rw [h]
  rcases hsd : saveDict w s with ⟨s₁, e⟩
  rw [hsd] at hok hsem hdirty
  have he : e = none := hok
  subst he
  exact ⟨rfl, by exact congrArg (fun n => n + 1) hsem, by simp [setTL], hdirty⟩

/-- Witness for C1 at the bypass scenario state. -/
theorem C1_witness :
    (releaseLock w₀ 0 c1Held).2 = none ∧
    (releaseLock w₀ 0 c1Held).1.semValue = c1Held.semValue + 1 ∧
    (releaseLock w₀ 0 c1Held).1.threadLocal 0 = some false ∧
    (releaseLock w₀ 0 c1Held).1.dirty = false :=
  C1_release_posts_unconditionally w₀ 0 c1Held (by rfl) (by rfl)

/-- Claim C1 counterexample: a handle with `auto_unlock = True` whose
acquire timed out while another process held the semaphore releases the
never-acquired semaphore on `_release_lock`; when the real holder then
posts as well, the binary semaphore's value reaches 2, above its initial
value 1. -/
theorem C1_counterexample : c1Trace.semValue = 2 ∧ ¬ c1Trace.semValue ≤ 1 := by
  constructor <;> decide

/-- Claim C2, amended: a nested `acquire()` on the thread that already
holds the lock leaves the semaphore and the thread-local flag untouched,
but it is not a cache no-op: it unconditionally runs `__load_dict`, so the
cache is reloaded from the shared segment. -/
theorem C2_reentrant_acquire_reloads (w : World) (tid : Nat) (s : SHMState)
    (h : s.threadLocal tid = some true) :
    acquireLock w tid s = loadDict w s ∧
    (acquireLock w tid s).1.semValue = s.semValue ∧
    (acquireLock w tid s).1.threadLocal = s.threadLocal := by
  have h1 : acquireLock w tid s = loadDict w s := by
    unfold acquireLock; rw [h]; rfl
  refine ⟨h1, ?_, ?_⟩ <;> rw [h1]
  · exact loadDict_semValue w s
  · exact loadDict_threadLocal w s

/-- Witness for C2 at the held scenario state. -/
theorem C2_witness :
    acquireLock w₀ 0 c2State = loadDict w₀ c2State ∧
    (acquireLock w₀ 0 c2State).1.semValue = c2State.semValue ∧
    (acquireLock w₀ 0 c2State).1.threadLocal = c2State.threadLocal :=
  C2_reentrant_acquire_reloads w₀ 0 c2State (by rfl)

/-- Claim C2 counterexample: with the lock held and the unsaved mutation
`{[1]: [2]}` pending in the cache, a nested acquire reloads the empty dict
the segment holds: the cache no longer reflects the pending in-process
mutation (the semaphore is indeed not re-acquired). -/
theorem C2_counterexample :
    currentDict c2State = some [([1], [2])] ∧
    (acquireLock w₀ 0 c2State).1.semValue = c2State.semValue ∧
    currentDict (acquireLock w₀ 0 c2State).1 = some [] := by
  refine ⟨rfl, rfl, rfl⟩

/-- Claim C4: the derived name is deterministic and begins with the path
separator `/` (code point 47), but under Python 3 – the interpreter the
module's shebang names – `"/{}".format` interpolates the repr of the bytes
object, so the name is `/b` + apostrophe + digest + apostrophe: the
characters after the leading separator are not all in the base64url
alphabet (the apostrophe, code point 39, at index 2 is not).  Evaluated at
the failing input name `x` with role tag `sem`. -/
theorem C4_safe_name_python3_repr :
    (∀ tag name : String, safeName tag name = safeName tag name) ∧
    (safeSemName "x").head? = some (Char.ofNat 47) ∧
    (safeSemName "x").get? 2 = some (Char.ofNat 39) ∧
    ((safeSemName "x").drop 1).all isB64urlOrPad = false := by
  exact ⟨fun _ _ => rfl, rfl, rfl, rfl⟩

/-- Claim C8: with `lock_timeout = 0` and the semaphore already held
(value 0), a fresh acquire fails immediately with `BusyError` and leaves
the state untouched when `auto_unlock` is false; with `auto_unlock` true it
does not raise `BusyError`, sets the held flag, and leaves the semaphore
value at 0 (it was never acquired). -/
theorem C8_timeout_zero (w : World) (tid : Nat) (s : SHMState)
    (htl : s.threadLocal tid = some false) (hsem : s.semValue = 0)
    (ht : s.lockTimeout = 0) :
    (s.autoUnlock = false → acquireLock w tid s = (s, some PyErr.busy)) ∧
    (s.autoUnlock = true →
      (acquireLock w tid s).2 ≠ some PyErr.busy ∧
      (acquireLock w tid s).1.threadLocal tid = some true ∧
      (acquireLock w tid s).1.semValue = 0) := by
  constructor
  · intro ha
    unfold acquireLock
    rw [htl, hsem, ha]
    rfl
  · intro ha
    have heq : acquireLock w tid s =
        loadDict w { s with threadLocal := setTL s.threadLocal tid true } := by
      unfold acquireLock
      rw [htl, hsem, ha]
      rfl
    refine ⟨?_, ?_, ?_⟩
    · rw [heq]
      rcases loadDict_err w { s with threadLocal := setTL s.threadLocal tid true }
        with he | he <;> rw [he] <;> simp
    · rw [heq, loadDict_threadLocal]
      simp [setTL]
    · rw [heq, loadDict_semValue]
      exact hsem

/-- Witness for C8, covering both policy values at concrete states. -/
theorem C8_witness :
    acquireLock w₀ 1 c8aState = (c8aState, some PyErr.busy) ∧
    ((acquireLock w₀ 1 c8bState).2 ≠ some PyErr.busy ∧
      (acquireLock w₀ 1 c8bState).1.threadLocal 1 = some true ∧
      (acquireLock w₀ 1 c8bState).1.semValue = 0) :=
  ⟨(C8_timeout_zero w₀ 1 c8aState (by rfl) (by rfl) (by rfl)).1 rfl,
    (C8_timeout_zero w₀ 1 c8bState (by rfl) (by rfl) (by rfl)).2 rfl⟩

/-- Claim C10: the thread-local held flag is initialized only in the
constructing thread, so the first operation from any other thread raises
`AttributeError` inside `_acquire_lock` before the semaphore is touched
(the state, its semaphore value included, is returned unchanged) — shown
for bare lock acquisition and for the public `__setitem__`. -/
theorem C10_foreign_thread_attribute_error (w : World) (page lt : Nat)
    (persist auto : Bool) (creator tid : Nat) (h : tid ≠ creator)
    (k v : List Nat) :
    acquireLock w tid (initState page lt persist auto creator) =
      (initState page lt persist auto creator, some PyErr.attributeError) ∧
    setItem w tid k v (initState page lt persist auto creator) =
      (initState page lt persist auto creator, some PyErr.attributeError) := by
  have htl : (initState page lt persist auto creator).threadLocal tid = none := by
    simp [initState, h]
  have h1 : acquireLock w tid (initState page lt persist auto creator) =
      (initState page lt persist auto creator, some PyErr.attributeError) := by
    unfold acquireLock; rw [htl]
  refine ⟨h1, ?_⟩
  unfold setItem
  rw [h1]

/-- Witness for C10 from thread 1 against a handle built by thread 0. -/
theorem C10_witness :
    acquireLock w₀ 1 (initState 4 0 false false 0) =
      (initState 4 0 false false 0, some PyErr.attributeError) ∧
    setItem w₀ 1 [1] [2] (initState 4 0 false false 0) =
      (initState 4 0 false false 0, some PyErr.attributeError) :=
  C10_foreign_thread_attribute_error w₀ 4 0 false false 0 1 (by decide) [1] [2]

/-- Claim C3: save/load round-trip — saving a dirty cache holding the
mapping M and then loading from the same segment yields a cache equal to
M, for every mapping the codec supports. -/
theorem C3_save_load_roundtrip (w : World) (s : SHMState) (r : Nat) (M : Dict)
    (hp : 0 < s.page) (hr : s.cacheRef = some r) (hM : s.heap.get? r = some M)
    (hd : s.dirty = true) :
    currentDict ((loadDict w ((saveDict w s).1)).1) = some M := by
  have hcp : cachePickle s = dumps M := by
    unfold cachePickle
    rw [hr]
    dsimp only
    rw [hM]
    rfl
  have hheap : ((saveDict w s).1).heap = s.heap := saveDict_heap w s
  have href : ((saveDict w s).1).cacheRef = s.cacheRef := saveDict_cacheRef w s
  have hpage : ((saveDict w s).1).page = s.page := saveDict_page w s
  have hseg : ((saveDict w s).1).segment = writeAt0 (mapFile s) (dumps M) := by
    rw [saveDict_segment_of_dirty w s hd, hcp]
  have hcpS : cachePickle ((saveDict w s).1) = dumps M := by
    unfold cachePickle
    rw [href, hr]
    dsimp only
    rw [hheap, hM]
    rfl
  have hlen1 : (mapFile s).length = pageRoundUp s.page (dumps M).length := by
    unfold mapFile
    rw [hcp]
    exact resizeSeg_length _ _ _
  have hge : (dumps M).length ≤ (mapFile s).length := by
    rw [hlen1]
    exact pageRoundUp_ge _ _ hp
  have hsl : ((saveDict w s).1).segment.length = (mapFile s).length := by
    rw [hseg]
    exact writeAt0_length _ _ hge
  have hmapS : mapFile ((saveDict w s).1) = ((saveDict w s).1).segment := by
    unfold mapFile
    rw [hcpS, hpage]
    unfold resizeSeg
    apply mmapResize_self
    rw [hsl, hlen1]
  have hloads : loads (mapFile ((saveDict w s).1)) = some M := by
    rw [hmapS, hseg]
    unfold writeAt0
    exact loads_dumps M _
  rw [loadDict_of_loads_some w _ M hloads]
  unfold currentDict
  dsimp only
  rw [hheap]
  exact get?_app_length _ _

/-- Witness for C3 at the dirty held state whose cache is `{[1]: [2]}`. -/
theorem C3_witness :
    currentDict ((loadDict w₀ ((saveDict w₀ c2State).1)).1) =
      some [([1], [2])] :=
  C3_save_load_roundtrip w₀ c2State 0 [([1], [2])] (by decide) rfl rfl rfl

/-- Claim C6, amended: `__load_dict` never surfaces a deserialization
failure of the segment, and a successful segment unpickle always rebinds
the cache; but the persistence-file / empty-mapping fallbacks run only when
the cache is still unbound (`None`) — when a bound cache coexists with an
undecodable segment, the old cache is silently kept and neither fallback is
tried. -/
theorem C6_load_fallback_only_when_unbound (w : World) (s : SHMState) :
    (∀ d, loads (mapFile s) = some d →
      loadDict w s =
        ({ s with segment := mapFile s, heap := s.heap ++ [d],
                  cacheRef := some s.heap.length }, none)) ∧
    (loads (mapFile s) = none → ∀ r, s.cacheRef = some r →
      loadDict w s = ({ s with segment := mapFile s }, none)) ∧
    (loads (mapFile s) = none → s.cacheRef = none →
      s.persistConfigured = true → w.persistReadable = none →
      loadDict w s =
        ({ s with segment := mapFile s, heap := s.heap ++ [[]],
                  cacheRef := some s.heap.length }, none)) ∧
    (loads (mapFile s) = none → s.cacheRef = none →
      s.persistConfigured = true → ∀ bs, w.persistReadable = some bs →
      ∀ d, loads bs = some d →
      loadDict w s =
        ({ s with segment := mapFile s, heap := s.heap ++ [d],
                  cacheRef := some s.heap.length }, none)) ∧
    (loads (mapFile s) = none → s.cacheRef = none →
      s.persistConfigured = false →
      loadDict w s =
        ({ s with segment := mapFile s, heap := s.heap ++ [[]],
                  cacheRef := some s.heap.length }, none)) :=
  ⟨fun d h => loadDict_of_loads_some w s d h,
    fun h r hr => loadDict_of_loads_none_ref w s r h hr,
    fun h hr hp hw => loadDict_of_loads_none_none_ioerr w s h hr hp hw,
    fun h hr hp bs hw d hbs => loadDict_of_loads_none_none_file w s bs d h hr hp hw hbs,
    fun h hr hp => loadDict_of_loads_none_none_nopersist w s h hr hp⟩

/-- Witness for C6 at the bound-cache, garbage-segment scenario. -/
theorem C6_witness :
    loadDict c6World c6State = ({ c6State with segment := mapFile c6State }, none) :=
  (C6_load_fallback_only_when_unbound c6World c6State).2.1 (by rfl) 0 (by rfl)

/-- Claim C6 counterexample: the segment bytes do not deserialize, a
persistence path is configured with a readable file holding `{[7]: [8]}`,
yet load keeps the previously bound cache `{[5]: [6]}` instead of reading
the persistence file (outcome (2) of the claim), because the fallback is
gated on the cache being `None`, not on the segment failure. -/
theorem C6_counterexample :
    loads (mapFile c6State) = none ∧
    c6State.persistConfigured = true ∧
    c6World.persistReadable = some (dumps [([7], [8])]) ∧
    (loadDict c6World c6State).2 = none ∧
    currentDict (loadDict c6World c6State).1 = some [([5], [6])] ∧
    currentDict (loadDict c6World c6State).1 ≠ some [([7], [8])] := by
  exact ⟨rfl, rfl, rfl, rfl, rfl, by decide⟩

/-- Claim C7: for a dirty save with a persistence path configured, a
persistence-file write failure is propagated (the `IOError` is surfaced)
and leaves the dirty flag set, although the segment write already
happened; the dirty flag is cleared exactly when both writes succeed. -/
theorem C7_persist_write_failure_propagates (w : World) (s : SHMState)
    (hd : s.dirty = true) (hpc : s.persistConfigured = true) :
    (w.persistWriteOk = false →
      (saveDict w s).2 = some PyErr.ioError ∧
      ((saveDict w s).1).dirty = true ∧
      ((saveDict w s).1).segment = writeAt0 (mapFile s) (cachePickle s)) ∧
    (w.persistWriteOk = true →
      (saveDict w s).2 = none ∧
      ((saveDict w s).1).dirty = false ∧
      ((saveDict w s).1).segment = writeAt0 (mapFile s) (cachePickle s)) := by
  constructor <;> intro hw <;>
    (unfold saveDict; try dsimp only; rw [hd, hpc, hw]; exact ⟨rfl, rfl, rfl⟩)

/-- Witness for C7 at the dirty persistent state, in both worlds. -/
theorem C7_witness :
    ((saveDict wBad c7State).2 = some PyErr.ioError ∧
      ((saveDict wBad c7State).1).dirty = true ∧
      ((saveDict wBad c7State).1).segment =
        writeAt0 (mapFile c7State) (cachePickle c7State)) ∧
    ((saveDict w₀ c7State).2 = none ∧
      ((saveDict w₀ c7State).1).dirty = false ∧
      ((saveDict w₀ c7State).1).segment =
        writeAt0 (mapFile c7State) (cachePickle c7State)) :=
  ⟨(C7_persist_write_failure_propagates wBad c7State rfl rfl).1 rfl,
    (C7_persist_write_failure_propagates w₀ c7State rfl rfl).2 rfl⟩

/-- Claim C5, amended: the `map_file` resize sets the segment length to
exactly the smallest page multiple ≥ the requested size (so the result is
≥ the request, a page multiple, and minimal among page multiples above
the request); repeating the call with the same target is idempotent, but a
strictly smaller target shrinks the mapping rather than leaving it
unchanged; and after every dirty save the segment length is the page
roundup of the serialized cache, hence at least its length. -/
theorem C5_resize_exact_page_roundup (p t : Nat) (seg : List Nat)
    (hp : 0 < p) (w : World) (s : SHMState) (hd : s.dirty = true)
    (hps : 0 < s.page) :
    (resizeSeg p seg t).length = pageRoundUp p t ∧
    t ≤ (resizeSeg p seg t).length ∧
    p ∣ (resizeSeg p seg t).length ∧
    (∀ m, p ∣ m → t ≤ m → (resizeSeg p seg t).length ≤ m) ∧
    resizeSeg p (resizeSeg p seg t) t = resizeSeg p seg t ∧
    ((saveDict w s).1).segment.length =
      pageRoundUp s.page (cachePickle s).length ∧
    (cachePickle s).length ≤ ((saveDict w s).1).segment.length := by
  have hlen : (resizeSeg p seg t).length = pageRoundUp p t :=
    resizeSeg_length p seg t
  have hml : (mapFile s).length = pageRoundUp s.page (cachePickle s).length :=
    resizeSeg_length _ _ _
  have hcl : (cachePickle s).length ≤ (mapFile s).length := by
    rw [hml]
    exact pageRoundUp_ge _ _ hps
  have hsl : ((saveDict w s).1).segment.length =
      pageRoundUp s.page (cachePickle s).length := by
    rw [saveDict_segment_of_dirty w s hd, writeAt0_length _ _ hcl, hml]
  refine ⟨hlen, ?_, ?_, ?_, ?_, hsl, ?_⟩
  · rw [hlen]
    exact pageRoundUp_ge _ _ hp
  · rw [hlen]
    unfold pageRoundUp
    exact dvd_mul_left p ((t + p - 1) / p)
  · intro m hm htm
    rw [hlen]
    obtain ⟨c, hc⟩ := hm
    have hdiv : (t + p - 1) / p ≤ c := by
      rw [Nat.div_le_iff_le_mul_add_pred hp]
      omega
    calc ((t + p - 1) / p) * p ≤ c * p := Nat.mul_le_mul_right p hdiv
    _ = m := by rw [hc, Nat.mul_comm]
  · unfold resizeSeg
    apply mmapResize_self
    rw [← resizeSeg]
    exact hlen
  · rw [hsl]
    exact pageRoundUp_ge _ _ hps

/-- Witness for C5 at page size 4, target 5, and the dirty scenario
state. -/
theorem C5_witness :
    ((resizeSeg 4 [] 5).length = pageRoundUp 4 5 ∧
      5 ≤ (resizeSeg 4 [] 5).length ∧
      4 ∣ (resizeSeg 4 [] 5).length ∧
      (∀ m, 4 ∣ m → 5 ≤ m → (resizeSeg 4 [] 5).length ≤ m) ∧
      resizeSeg 4 (resizeSeg 4 [] 5) 5 = resizeSeg 4 [] 5 ∧
      ((saveDict w₀ c2State).1).segment.length =
        pageRoundUp c2State.page (cachePickle c2State).length ∧
      (cachePickle c2State).length ≤
        ((saveDict w₀ c2State).1).segment.length) :=
  C5_resize_exact_page_roundup 4 5 [] (by decide) w₀ c2State rfl (by decide)

/-- Claim C5 counterexample: a repeated resize with a strictly smaller
target does not leave the length unchanged — it shrinks the mapping (page
size 4: resizing to 5 gives 8 bytes, then resizing the result to 1 gives
4). -/
theorem C5_counterexample :
    (resizeSeg 4 [] 5).length = 8 ∧
    (resizeSeg 4 (resizeSeg 4 [] 5) 1).length = 4 ∧
    (resizeSeg 4 (resizeSeg 4 [] 5) 1).length ≠ (resizeSeg 4 [] 5).length := by
  exact ⟨rfl, rfl, by decide⟩

/-- Claim C9, amended: `__iter__` hands out a live reference to the cache
object, not a copy; each call restarts from that object's current keys.  A
later facade mutation leaves an earlier iterator's keys unchanged whenever
the mutation's reload decodes the segment — the cache is then rebound to a
fresh object and the old object is untouched — but when the reload fails
the same object is mutated in place and the iterator observes it. -/
theorem C9_iterator_object_preserved_when_reload_decodes (w : World)
    (tid : Nat) (k v : List Nat) (s : SHMState) (it : Nat)
    (hit : it < s.heap.length) (d : Dict)
    (hdec : loads (mapFile s) = some d) :
    ((setItem w tid k v s).1).heap.get? it = s.heap.get? it ∧
    iterYieldKeys ((setItem w tid k v s).1) (some it) =
      iterYieldKeys s (some it) := by
  have hne : s.heap.length ≠ it := ne_of_gt hit
  have hmain : ((setItem w tid k v s).1).heap.get? it = s.heap.get? it := by
    rcases htl : s.threadLocal tid with _ | held
    · have ha : acquireLock w tid s = (s, some PyErr.attributeError) := by
        unfold acquireLock; rw [htl]
      unfold setItem
      rw [ha]
    · rcases held with _ | _
      · have hstep : acquireLock w tid s =
            if 0 < s.semValue then
              loadDict w { s with semValue := s.semValue - 1,
                                  threadLocal := setTL s.threadLocal tid true }
            else if s.autoUnlock = true then
              loadDict w { s with threadLocal := setTL s.threadLocal tid true }
            else (s, some PyErr.busy) := by
          unfold acquireLock
          rw [htl]
          try dsimp only
          rfl
        rcases Nat.eq_zero_or_pos s.semValue with hz | hpos
        · rw [hz, if_neg (Nat.lt_irrefl 0)] at hstep
          rcases hau : s.autoUnlock with _ | _
          · rw [hau, if_neg Bool.false_ne_true] at hstep
            unfold setItem
            rw [hstep]
          · rw [hau, if_pos rfl] at hstep
            have hdec₂ : loads (mapFile
                { s with autoUnlock := true, semValue := 0,
                         threadLocal := setTL s.threadLocal tid true }) = some d := hdec
            rw [loadDict_of_loads_some w _ d hdec₂] at hstep
            unfold setItem
            rw [hstep]
            try dsimp only
            exact (relMut_heap_get w tid _ _ _ it rfl hne).trans
              (List.get?_append hit)
        · rw [if_pos hpos] at hstep
          have hdec₂ : loads (mapFile
              { s with semValue := s.semValue - 1,
                       threadLocal := setTL s.threadLocal tid true }) = some d := hdec
          rw [loadDict_of_loads_some w _ d hdec₂] at hstep
          unfold setItem
          rw [hstep]
          try dsimp only
          exact (relMut_heap_get w tid _ _ _ it rfl hne).trans
            (List.get?_append hit)
      · have ha : acquireLock w tid s = loadDict w s := by
          unfold acquireLock; rw [htl]; rfl
        rw [loadDict_of_loads_some w s d hdec] at ha
        unfold setItem
        rw [ha]
        try dsimp only
        exact (relMut_heap_get w tid _ _ _ it rfl hne).trans
          (List.get?_append hit)
  refine ⟨hmain, ?_⟩
  unfold iterYieldKeys
  try dsimp only
  rw [hmain]

/-- Witness for C9 at the held scenario state, whose segment decodes to
the empty dict. -/
theorem C9_witness :
    ((setItem w₀ 0 [9] [9] c2State).1).heap.get? 0 = c2State.heap.get? 0 ∧
    iterYieldKeys ((setItem w₀ 0 [9] [9] c2State).1) (some 0) =
      iterYieldKeys c2State (some 0) :=
  C9_iterator_object_preserved_when_reload_decodes w₀ 0 [9] [9] c2State 0
    (by decide) [] (by rfl)

/-- Claim C9 counterexample: on a fresh handle whose segment never
decodes, `iter(d)` references the cache object; the following
`d[[1]] = [2]` keeps that very object (the reload fails) and mutates it in
place, so the keys the earlier iterator yields change from none to `[1]` —
the iterator is not a snapshot taken at lock-acquisition time. -/
theorem C9_counterexample :
    c9Iter.2 = some 0 ∧
    iterYieldKeys c9Iter.1.1 (some 0) = [] ∧
    iterYieldKeys c9AfterSet (some 0) = [[1]] := by
  exact ⟨rfl, rfl, rfl⟩

end SHMDict
